import Mathlib

/-!
Verification of the pgbackweb API layer claims.

The Go handlers under `internal/view/api` are shallowly embedded as pure
Lean functions: the echo context is replaced by explicit path/query
parameters, and each database-backed service method becomes a function
argument whose result the handler branches on (`Option String` models a Go
`error` result, `some e` being a non-nil error with message `e`).  HTTP
responses built with `c.JSON(status, map[string]string{...})` become a
status code paired with the list of key/value pairs.
-/

namespace PgBackWeb

/-- Representation of a Go `uuid.UUID` (`[16]byte`) as a list of byte values. -/
abbrev UUID := List Nat

/-- Representation of the zero value `uuid.Nil` (all sixteen bytes zero). -/
def uuidNil : UUID := List.replicate 16 0

/-- Value of one hexadecimal digit character, as accepted by `uuid.Parse`
(github.com/google/uuid, helper `xtob`). -/
def hexVal (c : Char) : Option Nat :=
  if '0' ≤ c ∧ c ≤ '9' then some (c.toNat - '0'.toNat)
  else if 'a' ≤ c ∧ c ≤ 'f' then some (c.toNat - 'a'.toNat + 10)
  else if 'A' ≤ c ∧ c ≤ 'F' then some (c.toNat - 'A'.toNat + 10)
  else none

/-- Decode a list of hexadecimal characters, two characters per byte. -/
def hexBytes : List Char → Option (List Nat)
  | [] => some []
  | c1 :: c2 :: rest =>
    match hexVal c1, hexVal c2, hexBytes rest with
    | some h, some l, some bs => some ((16 * h + l) :: bs)
    | _, _, _ => none
  | _ => none

/-- Split a character list at each '-' separator. -/
def splitDash : List Char → List (List Char)
  | [] => [[]]
  | c :: rest =>
    if c = '-' then [] :: splitDash rest
    else
      match splitDash rest with
      | [] => [[c]]
      | g :: gs => (c :: g) :: gs

/-- Go `uuid.Parse` on the canonical 36-character
8-4-4-4-12 hexadecimal form, which is the form the API requests use.
Returns `none` exactly when Go's `uuid.Parse` would return a non-nil
error for such a string. -/
def uuidParse (s : String) : Option UUID :=
  match splitDash s.data with
  | [a, b, c, d, e] =>
    if a.length = 8 ∧ b.length = 4 ∧ c.length = 4 ∧ d.length = 4 ∧ e.length = 12 then
      hexBytes (a ++ b ++ c ++ d ++ e)
    else none
  | _ => none

/-- An HTTP JSON response: the status code together with the JSON object
body written as key/value pairs. -/
structure Resp where
  status : Nat
  body : List (String × String)
deriving DecidableEq

/-- Embedding of `triggerBackupHandler`
(`internal/view/web/api/restorations` trigger route, source part_006
lines 181-204): parse the backup id path parameter (400 on parse error),
call `ExecutionsService.RunExecution` (modelled by `runExecution`,
`some e` = error), answer 500 with the error surfaced on failure and 200
with the success message otherwise. -/
def triggerBackupHandler (idStr : String) (runExecution : UUID → Option String) : Resp :=
  match uuidParse idStr with
  | none => ⟨400, [("error", "Invalid backup ID")]⟩
  | some backupID =>
    match runExecution backupID with
    | some e => ⟨500, [("error", "Failed to trigger backup: " ++ e)]⟩
    | none => ⟨200, [("message", "Backup task triggered successfully")]⟩

/-- Claim C1 counterexample: for a backup id that parses as a valid UUID
and a `RunExecution` that returns an error, the handler does NOT respond
with HTTP 200 and the success message — the run error is surfaced as a
500 response, refuting the claim that run errors are swallowed. -/
theorem C1_trigger_counterexample :
    (uuidParse ("123e4567-e89b-12d3-a456-426614174000")).isSome = true ∧
    triggerBackupHandler ("123e4567-e89b-12d3-a456-426614174000")
        (fun _ => some "assert.AnError general error for testing")
      ≠ ⟨200, [("message", "Backup task triggered successfully")]⟩ := by
  constructor
  · decide
  · decide

/-- Claim C1 (amended): for every trigger-backup request whose backup_id
parses as a valid UUID, the handler responds 200 with the success message
exactly when `RunExecution` returns no error; when `RunExecution` returns
an error the handler responds 500 and surfaces the error to the caller. -/
theorem C1_trigger_amended (idStr : String) (u : UUID) (run : UUID → Option String)
    (h : uuidParse idStr = some u) :
    (run u = none →
      triggerBackupHandler idStr run
        = ⟨200, [("message", "Backup task triggered successfully")]⟩) ∧
    (∀ e, run u = some e →
      triggerBackupHandler idStr run
        = ⟨500, [("error", "Failed to trigger backup: " ++ e)]⟩) := by
  unfold triggerBackupHandler
  rw [h]
  constructor
  · intro hr
    simp only [hr]
  · intro e hr
    simp only [hr]

/-- Witness for the amended claim C1 at a concrete request. -/
theorem C1_trigger_amended_witness :
    triggerBackupHandler ("123e4567-e89b-12d3-a456-426614174000") (fun _ => none)
      = ⟨200, [("message", "Backup task triggered successfully")]⟩ :=
  (C1_trigger_amended ("123e4567-e89b-12d3-a456-426614174000")
    [18, 62, 69, 103, 232, 155, 18, 211, 164, 86, 66, 102, 20, 23, 64, 0]
    (fun _ => none) (by decide)).1 rfl

/-- Go `uuid.NullUUID`: a UUID together with its Valid flag; the zero
value (nil UUID, Valid=false) represents a SQL NULL reference. -/
structure NullUUID where
  uuid : UUID
  valid : Bool
deriving DecidableEq

/-- Decoded request body of `createBackupHandler` (part_006 lines 103-119). -/
structure CreateBackupRequest where
  databaseID : String
  destinationID : String
  isLocal : Bool
  name : String
  cronExpression : String
  timeZone : String
  isActive : Bool
  destDir : String
  retentionDays : Int
  optDataOnly : Bool
  optSchemaOnly : Bool
  optClean : Bool
  optIfExists : Bool
  optCreate : Bool
  optNoComments : Bool
deriving DecidableEq

/-- Struct `dbgen.BackupsServiceCreateBackupParams` as the handler fills it. -/
structure CreateBackupParams where
  databaseID : UUID
  destinationID : NullUUID
  isLocal : Bool
  name : String
  cronExpression : String
  timeZone : String
  isActive : Bool
  destDir : String
  retentionDays : Int
  optDataOnly : Bool
  optSchemaOnly : Bool
  optClean : Bool
  optIfExists : Bool
  optCreate : Bool
  optNoComments : Bool
deriving DecidableEq

/-- Destination-id phase of `createBackupHandler` (part_006 lines
134-143): when `is_local` is false the destination id must parse (else
the handler answers 400, here `none`) and Valid is set; when `is_local`
is true the Go zero value of `var destinationID uuid.NullUUID` is kept. -/
def createBackupDestinationID (isLocal : Bool) (destStr : String) : Option NullUUID :=
  if isLocal then some ⟨uuidNil, false⟩
  else
    match uuidParse destStr with
    | none => none
    | some id => some ⟨id, true⟩

/-- Parameter construction of `createBackupHandler` (part_006 lines
126-162): `none` when the handler rejects with 400 (invalid database or
destination id), otherwise the exact params passed to
`BackupsService.CreateBackup`. -/
def createBackupParams (req : CreateBackupRequest) : Option CreateBackupParams :=
  match uuidParse req.databaseID with
  | none => none
  | some databaseID =>
    match createBackupDestinationID req.isLocal req.destinationID with
    | none => none
    | some destinationID =>
      some { databaseID := databaseID
             destinationID := destinationID
             isLocal := req.isLocal
             name := req.name
             cronExpression := req.cronExpression
             timeZone := req.timeZone
             isActive := req.isActive
             destDir := req.destDir
             retentionDays := req.retentionDays
             optDataOnly := req.optDataOnly
             optSchemaOnly := req.optSchemaOnly
             optClean := req.optClean
             optIfExists := req.optIfExists
             optCreate := req.optCreate
             optNoComments := req.optNoComments }

/-- Claim C5 (confirmed): every BackupConfig accepted by the
create-backup operation satisfies the invariant that `is_local = false`
implies a non-null destination reference, and `is_local = true` implies a
null destination reference. -/
theorem C5_createBackup_invariant (req : CreateBackupRequest) (p : CreateBackupParams)
    (h : createBackupParams req = some p) :
    (p.isLocal = false → p.destinationID.valid = true) ∧
    (p.isLocal = true → p.destinationID.valid = false) := by
  unfold createBackupParams createBackupDestinationID at h
  cases hdb : uuidParse req.databaseID with
  | none => rw [hdb] at h; exact absurd h (by simp)
  | some databaseID =>
    rw [hdb] at h
    by_cases hl : req.isLocal
    · simp only [hl, if_true] at h
      cases h
      simp [hl]
    · simp only [hl, if_false] at h
      cases hdest : uuidParse req.destinationID with
      | none => rw [hdest] at h; exact absurd h (by simp)
      | some id =>
        rw [hdest] at h
        cases h
        simp [Bool.of_not_eq_true hl]

/-- Witness request for claim C5: a remote (non-local) backup with both
ids well-formed. -/
def reqC5 : CreateBackupRequest :=
  { databaseID := "123e4567-e89b-12d3-a456-426614174000"
    destinationID := "123e4567-e89b-12d3-a456-426614174001"
    isLocal := false
    name := "daily"
    cronExpression := "0 0 * * *"
    timeZone := "UTC"
    isActive := true
    destDir := "backups"
    retentionDays := 7
    optDataOnly := false
    optSchemaOnly := false
    optClean := false
    optIfExists := false
    optCreate := false
    optNoComments := false }

/-- Params produced by the handler for `reqC5`. -/
def paramsC5 : CreateBackupParams :=
  { databaseID := [18, 62, 69, 103, 232, 155, 18, 211, 164, 86, 66, 102, 20, 23, 64, 0]
    destinationID := ⟨[18, 62, 69, 103, 232, 155, 18, 211, 164, 86, 66, 102, 20, 23, 64, 1], true⟩
    isLocal := false
    name := "daily"
    cronExpression := "0 0 * * *"
    timeZone := "UTC"
    isActive := true
    destDir := "backups"
    retentionDays := 7
    optDataOnly := false
    optSchemaOnly := false
    optClean := false
    optIfExists := false
    optCreate := false
    optNoComments := false }

/-- Witness for claim C5 at the concrete request `reqC5`. -/
theorem C5_createBackup_invariant_witness :
    (paramsC5.isLocal = false → paramsC5.destinationID.valid = true) ∧
    (paramsC5.isLocal = true → paramsC5.destinationID.valid = false) :=
  C5_createBackup_invariant reqC5 paramsC5 (by decide)

/-- Response written by the API-key middleware on rejection. -/
def unauthorizedResp : Resp := ⟨401, [("error", "Invalid or missing API key")]⟩

/-- Embedding of `APIKeyAuth` (internal/view/web/api/middleware.go lines
11-26): `headerKey` is the X-API-Key request header ("" when absent),
`envKey` the `API_KEY` environment value ("" when unset), and `next` the
wrapped handler, invoked only when the key check passes. -/
def apiKeyAuth (headerKey envKey : String) (next : Unit → Resp) : Resp :=
  if headerKey = "" ∨ headerKey ≠ envKey then unauthorizedResp
  else next ()

/-- Claim C8 (confirmed): the middleware answers 401 with body
error "Invalid or missing API key" exactly when the header is empty or
differs from the API_KEY value — in that case the result is the fixed
rejection response for every wrapped handler, so the handler is never
invoked — and otherwise it returns the wrapped handler's response; with
API_KEY unset (""), every request is rejected, including one with an
empty header (fail-closed). -/
theorem C8_apiKeyAuth_spec :
    (∀ headerKey envKey next, (headerKey = "" ∨ headerKey ≠ envKey) →
        apiKeyAuth headerKey envKey next = unauthorizedResp) ∧
    (∀ headerKey envKey next, ¬ (headerKey = "" ∨ headerKey ≠ envKey) →
        apiKeyAuth headerKey envKey next = next ()) ∧
    (∀ headerKey next, apiKeyAuth headerKey ("") next = unauthorizedResp) := by
  refine ⟨?_, ?_, ?_⟩
  · intro headerKey envKey next hc
    unfold apiKeyAuth
    rw [if_pos hc]
  · intro headerKey envKey next hc
    unfold apiKeyAuth
    rw [if_neg hc]
  · intro headerKey next
    by_cases hh : headerKey = ""
    · unfold apiKeyAuth
      rw [if_pos (Or.inl hh)]
    · unfold apiKeyAuth
      rw [if_pos (Or.inr hh)]

/-- Witness for claim C8: a missing header with a set key, a present
header with an unset key, and a matching header are each decided as the
theorem states. -/
theorem C8_apiKeyAuth_spec_witness :
    apiKeyAuth ("") ("secret-key") (fun _ => ⟨200, []⟩) = unauthorizedResp ∧
    apiKeyAuth ("some-key") ("") (fun _ => ⟨200, []⟩) = unauthorizedResp ∧
    apiKeyAuth ("secret-key") ("secret-key") (fun _ => ⟨200, []⟩) = ⟨200, []⟩ :=
  ⟨C8_apiKeyAuth_spec.1 ("") ("secret-key") _ (Or.inl rfl),
   C8_apiKeyAuth_spec.2.2 ("some-key") _,
   C8_apiKeyAuth_spec.2.1 ("secret-key") ("secret-key") _ (by decide)⟩

/-- Decoded request body of `createDatabaseAPI`
(internal/view/api/databases.go lines 11-15). -/
structure CreateDatabaseRequest where
  name : String
  version : String
  connectionString : String
deriving DecidableEq

/-- Version tags allowed by the `oneof=13 14 15 16` validate tag on
`createDatabaseRequest.Version`. -/
def validVersions : List String := ["13", "14", "15", "16"]

/-- Validation performed by `validate.Struct` on `createDatabaseRequest`,
modelled from the struct tags in databases.go (every field `required`,
Version additionally `oneof=13 14 15 16`) and the error message format
observed by the repository's tests ("error in field Version: oneof"). -/
def validateCreateDatabase (req : CreateDatabaseRequest) : Option String :=
  if req.name = "" then some "error in field Name: required"
  else if req.version = "" then some "error in field Version: required"
  else if validVersions.contains req.version = false then some "error in field Version: oneof"
  else if req.connectionString = "" then some "error in field ConnectionString: required"
  else none

/-- Struct `dbgen.DatabasesServiceCreateDatabaseParams` as the handler fills it. -/
structure CreateDatabaseParams where
  name : String
  pgVersion : String
  connectionString : String
deriving DecidableEq

/-- Outcome of `createDatabaseAPI`: the response together with whether
each service call was reached. -/
structure CreateDatabaseOutcome where
  resp : Resp
  testDatabaseCalled : Bool
  createDatabaseCalled : Bool
deriving DecidableEq

/-- Embedding of `createDatabaseAPI` (databases.go lines 24-67): bind,
validate (400 on error), `TestDatabase` (400 on error), then
`CreateDatabase` (500 on error, 201 on success; the created row returned
in the 201 body is a service value and is abstracted to an empty body
here).  `testDatabase version connString` and `createDatabase params`
model the service methods, `some e` being a non-nil error. -/
def createDatabaseAPI (req : CreateDatabaseRequest)
    (testDatabase : String → String → Option String)
    (createDatabase : CreateDatabaseParams → Option String) : CreateDatabaseOutcome :=
  match validateCreateDatabase req with
  | some e => ⟨⟨400, [("error", e)]⟩, false, false⟩
  | none =>
    match testDatabase req.version req.connectionString with
    | some e => ⟨⟨400, [("error", "Failed to connect to database: " ++ e)]⟩, true, false⟩
    | none =>
      match createDatabase ⟨req.name, req.version, req.connectionString⟩ with
      | some e => ⟨⟨500, [("error", "Failed to create database: " ++ e)]⟩, true, true⟩
      | none => ⟨⟨201, []⟩, true, true⟩

/-- Claim C10 (confirmed): the create-database API accepts only the
postgres version tags 13, 14, 15 and 16: for any other version value
(such as "17") validation rejects the request with HTTP 400 before the
connection test runs and before any database row is created; and for a
listed version with the other required fields present, the request
proceeds to the connection test. -/
theorem C10_createDatabase_versions :
    (∀ req testDatabase createDatabase, validVersions.contains req.version = false →
      (createDatabaseAPI req testDatabase createDatabase).resp.status = 400 ∧
      (createDatabaseAPI req testDatabase createDatabase).testDatabaseCalled = false ∧
      (createDatabaseAPI req testDatabase createDatabase).createDatabaseCalled = false) ∧
    (∀ req testDatabase createDatabase, req.name ≠ "" → req.connectionString ≠ "" →
      validVersions.contains req.version = true →
      (createDatabaseAPI req testDatabase createDatabase).testDatabaseCalled = true) := by
  constructor
  · intro req testDatabase createDatabase hv
    have hv2 : req.version ∉ validVersions := by simpa using hv
    unfold createDatabaseAPI validateCreateDatabase
    by_cases h1 : req.name = "" <;> by_cases h2 : req.version = "" <;>
      simp [h1, h2, hv2]
  · intro req testDatabase createDatabase h1 h3 hv
    have hv2 : req.version ∈ validVersions := by simpa using hv
    have h2 : req.version ≠ "" := by
      intro he
      rw [he] at hv2
      simp [validVersions] at hv2
    have hval : validateCreateDatabase req = none := by
      unfold validateCreateDatabase
      simp [h1, h2, h3, hv2]
    unfold createDatabaseAPI
    rw [hval]
    cases testDatabase req.version req.connectionString with
    | some e => rfl
    | none =>
      cases createDatabase ⟨req.name, req.version, req.connectionString⟩ with
      | some e => rfl
      | none => rfl

/-- Witness for claim C10: version "17" (whose client the runtime image
installs) is rejected with 400 and no service call, and version "15"
reaches the connection test. -/
theorem C10_createDatabase_versions_witness :
    ((createDatabaseAPI ⟨"test-db", "17", "postgresql://u:p@localhost:5432/test"⟩
        (fun _ _ => none) (fun _ => none)).resp.status = 400 ∧
     (createDatabaseAPI ⟨"test-db", "17", "postgresql://u:p@localhost:5432/test"⟩
        (fun _ _ => none) (fun _ => none)).testDatabaseCalled = false ∧
     (createDatabaseAPI ⟨"test-db", "17", "postgresql://u:p@localhost:5432/test"⟩
        (fun _ _ => none) (fun _ => none)).createDatabaseCalled = false) ∧
    (createDatabaseAPI ⟨"test-db", "15", "postgresql://u:p@localhost:5432/test"⟩
        (fun _ _ => none) (fun _ => none)).testDatabaseCalled = true :=
  ⟨C10_createDatabase_versions.1 ⟨"test-db", "17", "postgresql://u:p@localhost:5432/test"⟩
      (fun _ _ => none) (fun _ => none) (by decide),
   C10_createDatabase_versions.2 ⟨"test-db", "15", "postgresql://u:p@localhost:5432/test"⟩
      (fun _ _ => none) (fun _ => none) (by decide) (by decide) (by decide)⟩

/-- Query parameters of a request. -/
abbrev QueryMap := List (String × String)

/-- Echo's `c.QueryParam`: the value of the named query parameter, or ""
when the parameter is absent. -/
def queryParam (q : QueryMap) (name : String) : String :=
  match q.find? (fun p => p.1 == name) with
  | some p => p.2
  | none => ""

/-- Struct `executions.PaginateExecutionsParams` as `listExecutionsHandler`
fills it (part_007 lines 47-51). -/
structure PaginateExecutionsParams where
  page : Nat
  limit : Nat
  backupFilter : NullUUID
deriving DecidableEq

/-- Struct `paginateutil.PaginateResponse` (fields per the Pagination
schema in swagger.json). -/
structure PaginateResponse where
  currentPage : Nat
  itemsPerPage : Nat
  totalItems : Nat
  totalPages : Nat
  hasNextPage : Bool
  hasPreviousPage : Bool
  nextPage : Nat
  previousPage : Nat
deriving DecidableEq

/-- Execution row as serialized in the response; opaque to the handler. -/
abbrev ExecutionRow := List (String × String)

/-- Parameter phase of `listExecutionsHandler` (part_007 lines 31-51):
the handler reads only the backup_id query parameter — it never reads the
page and limit query parameters documented for /executions in
swagger.json — and returns `none` for the 400 response on a malformed
backup id, otherwise the exact `PaginateExecutionsParams` it passes to
`ExecutionsService.PaginateExecutions`, with the fixed values Page=1 and
Limit=100. -/
def listExecutionsParams (q : QueryMap) : Option PaginateExecutionsParams :=
  if queryParam q ("backup_id") = "" then some ⟨1, 100, ⟨uuidNil, false⟩⟩
  else
    match uuidParse (queryParam q ("backup_id")) with
    | none => none
    | some id => some ⟨1, 100, ⟨id, true⟩⟩

/-- Result of `listExecutionsHandler`: 400, 500, or 200 with the rows and
the pagination (total counts) in the body. -/
inductive ListExecutionsResult where
  | badRequest (body : List (String × String))
  | internalError (body : List (String × String))
  | ok (data : List ExecutionRow) (pagination : PaginateResponse)
deriving DecidableEq

/-- Embedding of `listExecutionsHandler` (part_007 lines 31-62), with
`svc` modelling `ExecutionsService.PaginateExecutions`. -/
def listExecutionsHandler (q : QueryMap)
    (svc : PaginateExecutionsParams → Except String (PaginateResponse × List ExecutionRow)) :
    ListExecutionsResult :=
  match listExecutionsParams q with
  | none => .badRequest [("error", "Invalid backup ID")]
  | some params =>
    match svc params with
    | .error e => .internalError [("error", "Failed to get executions: " ++ e)]
    | .ok pr => .ok pr.2 pr.1

/-- Claim C4 (code bug): at the failing input page=2&limit=50 the handler
passes the fixed Page=1, Limit=100 to the service, and in general every
service call uses page 1 and limit 100 — the caller's page and limit
query parameters documented in swagger.json (limit at most 1000) are
never applied. -/
theorem C4_pagination_ignored :
    listExecutionsParams [(("page"), ("2")), (("limit"), ("50"))]
      = some ⟨1, 100, ⟨uuidNil, false⟩⟩ ∧
    (∀ q p, listExecutionsParams q = some p → p.page = 1 ∧ p.limit = 100) := by
  constructor
  · decide
  · intro q p h
    unfold listExecutionsParams at h
    by_cases hb : queryParam q ("backup_id") = ""
    · rw [if_pos hb] at h
      cases h
      exact ⟨rfl, rfl⟩
    · rw [if_neg hb] at h
      cases hu : uuidParse (queryParam q ("backup_id")) with
      | none =>
        rw [hu] at h
        exact absurd h (by simp)
      | some id =>
        rw [hu] at h
        cases h
        exact ⟨rfl, rfl⟩

/-- Witness for claim C4 at the empty query. -/
theorem C4_pagination_ignored_witness :
    (⟨1, 100, ⟨uuidNil, false⟩⟩ : PaginateExecutionsParams).page = 1 ∧
    (⟨1, 100, ⟨uuidNil, false⟩⟩ : PaginateExecutionsParams).limit = 100 :=
  C4_pagination_ignored.2 [] ⟨1, 100, ⟨uuidNil, false⟩⟩ (by decide)

/-- Struct `restorations.PaginateRestorationsParams` as
`listRestorationsHandler` fills it (restorations/router.go lines 57-62). -/
structure PaginateRestorationsParams where
  executionFilter : NullUUID
  databaseFilter : NullUUID
  page : Nat
  limit : Nat
deriving DecidableEq

/-- Restoration row as serialized in the response; opaque to the handler. -/
abbrev RestorationRow := List (String × String)

/-- Parameter phase of `listRestorationsHandler`
(internal/view/api/restorations/router.go lines 42-62): each of the
optional execution_id and database_id query parameters is parsed when
non-empty (`.error` = the 400 response body), the Go zero value
`uuid.Nil` is kept when absent, and each filter's Valid flag is computed
as parsed-id != uuid.Nil — not from parameter presence. -/
def listRestorationsParams (q : QueryMap) :
    Except (List (String × String)) PaginateRestorationsParams :=
  match (if queryParam q ("execution_id") = "" then some uuidNil
         else uuidParse (queryParam q ("execution_id"))) with
  | none => .error [("error", "Invalid execution ID")]
  | some executionID =>
    match (if queryParam q ("database_id") = "" then some uuidNil
           else uuidParse (queryParam q ("database_id"))) with
    | none => .error [("error", "Invalid database ID")]
    | some databaseID =>
      .ok ⟨⟨executionID, executionID != uuidNil⟩, ⟨databaseID, databaseID != uuidNil⟩, 1, 100⟩

/-- Result of `listRestorationsHandler`: 400, 500, or 200 with the rows
(the pagination return of the service is discarded by the handler). -/
inductive ListRestorationsResult where
  | badRequest (body : List (String × String))
  | internalError (body : List (String × String))
  | ok (data : List RestorationRow)
deriving DecidableEq

/-- Embedding of `listRestorationsHandler` (restorations/router.go lines
42-83), with `svc` modelling `RestorationsService.PaginateRestorations`. -/
def listRestorationsHandler (q : QueryMap)
    (svc : PaginateRestorationsParams → Except String (PaginateResponse × List RestorationRow)) :
    ListRestorationsResult :=
  match listRestorationsParams q with
  | .error body => .badRequest body
  | .ok params =>
    match svc params with
    | .error e => .internalError [("error", "Failed to get restorations: " ++ e)]
    | .ok pr => .ok pr.2

/-- Canonical spelling of the nil UUID. -/
def nilUUIDString : String := "00000000-0000-0000-0000-000000000000"

/-- Claim C9 (confirmed): supplying the nil UUID as execution_id is
accepted (no 400) and behaves exactly as an absent filter — the handler
response is identical for every service — because Valid is computed as
parsed-id != uuid.Nil; only a well-formed non-nil UUID produces a valid
filter. -/
theorem C9_nilUUID_filter :
    (∀ svc, listRestorationsHandler [(("execution_id"), nilUUIDString)] svc
        = listRestorationsHandler [] svc) ∧
    listRestorationsParams [(("execution_id"), nilUUIDString)]
      = .ok ⟨⟨uuidNil, false⟩, ⟨uuidNil, false⟩, 1, 100⟩ ∧
    (∀ s u, uuidParse s = some u → u ≠ uuidNil →
      listRestorationsParams [(("execution_id"), s)]
        = .ok ⟨⟨u, true⟩, ⟨uuidNil, false⟩, 1, 100⟩) := by
  refine ⟨fun svc => rfl, rfl, ?_⟩
  intro s u hp hne
  have hs : s ≠ "" := by
    intro h
    rw [h] at hp
    have h0 : uuidParse ("") = none := rfl
    rw [h0] at hp
    exact Option.noConfusion hp
  have hq1 : queryParam [(("execution_id"), s)] ("execution_id") = s := rfl
  have hq2 : queryParam [(("execution_id"), s)] ("database_id") = "" := rfl
  unfold listRestorationsParams
  rw [hq1, hq2, if_neg hs, hp, if_pos rfl]
  simp [bne_iff_ne, hne]

/-- Witness for claim C9 at a concrete well-formed, non-nil execution id. -/
theorem C9_nilUUID_filter_witness :
    listRestorationsParams
        [(("execution_id"), ("123e4567-e89b-12d3-a456-426614174000"))]
      = .ok ⟨⟨[18, 62, 69, 103, 232, 155, 18, 211, 164, 86, 66, 102, 20, 23, 64, 0], true⟩,
             ⟨uuidNil, false⟩, 1, 100⟩ :=
  C9_nilUUID_filter.2.2 ("123e4567-e89b-12d3-a456-426614174000")
    [18, 62, 69, 103, 232, 155, 18, 211, 164, 86, 66, 102, 20, 23, 64, 0]
    (by decide) (by decide)

/-- Webhook row as serialized by the handler; opaque here. -/
abbrev WebhookRow := List (String × String)

/-- Embedding of `getWebhookAPI` (internal/view/api/webhooks.go lines
122-160): 400 on a malformed id, 404 exactly when the service error text
is "webhook not found", 500 on any other service error. -/
def getWebhookAPI (idStr : String) (getWebhook : UUID → Except String WebhookRow) : Resp :=
  match uuidParse idStr with
  | none => ⟨400, [("error", "Invalid webhook ID")]⟩
  | some webhookID =>
    match getWebhook webhookID with
    | .error e =>
      if e = "webhook not found" then ⟨404, [("error", "Webhook not found")]⟩
      else ⟨500, [("error", "Failed to get webhook: " ++ e)]⟩
    | .ok row => ⟨200, row⟩

/-- Embedding of `deleteWebhookAPI` (webhooks.go lines 162-189). -/
def deleteWebhookAPI (idStr : String) (deleteWebhook : UUID → Option String) : Resp :=
  match uuidParse idStr with
  | none => ⟨400, [("error", "Invalid webhook ID")]⟩
  | some webhookID =>
    match deleteWebhook webhookID with
    | some e =>
      if e = "webhook not found" then ⟨404, [("error", "Webhook not found")]⟩
      else ⟨500, [("error", "Failed to delete webhook: " ++ e)]⟩
    | none => ⟨204, []⟩

/-- Embedding of `DeleteDestination` (part_004 lines 10-27): every
service error — including `sql.ErrNoRows` for an unknown id — becomes an
`echo.NewHTTPError` with status 500, modelled as a response whose body
carries the HTTPError message. -/
def deleteDestination (idStr : String) (svcDelete : UUID → Option String) : Resp :=
  match uuidParse idStr with
  | none => ⟨400, [("message", "Invalid destination ID")]⟩
  | some id =>
    match svcDelete id with
    | some e => ⟨500, [("message", "Failed to delete destination: " ++ e)]⟩
    | none => ⟨204, []⟩

/-- Embedding of `getBackupHandler` (part_006 lines 42-63): any service
error becomes a 500 response. -/
def getBackupHandler (idStr : String)
    (getBackup : UUID → Except String (List (String × String))) : Resp :=
  match uuidParse idStr with
  | none => ⟨400, [("error", "Invalid backup ID")]⟩
  | some id =>
    match getBackup id with
    | .error e => ⟨500, [("error", "Failed to get backup: " ++ e)]⟩
    | .ok row => ⟨200, row⟩

/-- Embedding of `GetExecutionHandler` (part_000 lines 58-80): any
service error becomes a 500 response. -/
def getExecutionHandler (idStr : String)
    (getExecution : UUID → Except String (List (String × String))) : Resp :=
  match uuidParse idStr with
  | none => ⟨400, [("error", "Invalid execution ID")]⟩
  | some id =>
    match getExecution id with
    | .error e => ⟨500, [("error", "Failed to get execution: " ++ e)]⟩
    | .ok row => ⟨200, row⟩

/-- Claim C6 counterexample: a delete-destination request with a
well-formed id whose service lookup fails with `sql.ErrNoRows` (the
unknown-id error) answers 500, not 404 — exactly what the repository's own
TestDeleteDestination_NotFound asserts — refuting the claimed uniform
404 behavior. -/
theorem C6_notfound_counterexample :
    (deleteDestination ("123e4567-e89b-12d3-a456-426614174000")
        (fun _ => some "sql: no rows in result set")).status = 500 ∧
    ¬ (deleteDestination ("123e4567-e89b-12d3-a456-426614174000")
        (fun _ => some "sql: no rows in result set")).status = 404 := by
  exact ⟨by decide, by decide⟩

/-- Claim C6 (amended): the 404 mapping for unknown ids is not uniform:
for a well-formed id, the webhook get/delete handlers answer 404 exactly
when the service reports "webhook not found", while the destination
delete, backup get and execution get handlers answer 500 for every
service error, including the unknown-id error. -/
theorem C6_notfound_amended (idStr : String) (u : UUID) (h : uuidParse idStr = some u) :
    getWebhookAPI idStr (fun _ => .error ("webhook not found"))
      = ⟨404, [("error", "Webhook not found")]⟩ ∧
    deleteWebhookAPI idStr (fun _ => some ("webhook not found"))
      = ⟨404, [("error", "Webhook not found")]⟩ ∧
    (∀ e, (deleteDestination idStr (fun _ => some e)).status = 500) ∧
    (∀ e, (getBackupHandler idStr (fun _ => .error e)).status = 500) ∧
    (∀ e, (getExecutionHandler idStr (fun _ => .error e)).status = 500) := by
  refine ⟨?_, ?_, ?_, ?_, ?_⟩
  · unfold getWebhookAPI
    rw [h]
    rfl
  · unfold deleteWebhookAPI
    rw [h]
    rfl
  · intro e
    unfold deleteDestination
    rw [h]
  · intro e
    unfold getBackupHandler
    rw [h]
  · intro e
    unfold getExecutionHandler
    rw [h]

/-- Witness for the amended claim C6 at a concrete id and the
`sql.ErrNoRows` error text. -/
theorem C6_notfound_amended_witness :
    getWebhookAPI ("123e4567-e89b-12d3-a456-426614174000")
        (fun _ => .error ("webhook not found"))
      = ⟨404, [("error", "Webhook not found")]⟩ ∧
    (deleteDestination ("123e4567-e89b-12d3-a456-426614174000")
        (fun _ => some "sql: no rows in result set")).status = 500 :=
  ⟨(C6_notfound_amended ("123e4567-e89b-12d3-a456-426614174000")
      [18, 62, 69, 103, 232, 155, 18, 211, 164, 86, 66, 102, 20, 23, 64, 0] (by decide)).1,
   (C6_notfound_amended ("123e4567-e89b-12d3-a456-426614174000")
      [18, 62, 69, 103, 232, 155, 18, 211, 164, 86, 66, 102, 20, 23, 64, 0]
      (by decide)).2.2.1 ("sql: no rows in result set")⟩

/-- Row `dbgen.DestinationsServiceGetDestinationRow` (generated code
outside this excerpt): the ten fields `toDestinationResponse` reads from
it, together with the destination's access/secret key pair that the
service layer carries (spec §3: destinations store an encrypted
access/secret key pair).  Timestamps are abstracted as their formatted
strings. -/
structure GetDestinationRow where
  id : UUID
  name : String
  bucketName : String
  region : String
  endpoint : String
  accessKey : String
  secretKey : String
  testOk : Option Bool
  testError : Option String
  lastTestAt : Option String
  createdAt : String
  updatedAt : Option String
deriving DecidableEq

/-- Row `dbgen.DestinationsServiceGetAllDestinationsRow`, same shape. -/
structure GetAllDestinationsRow where
  id : UUID
  name : String
  bucketName : String
  region : String
  endpoint : String
  accessKey : String
  secretKey : String
  testOk : Option Bool
  testError : Option String
  lastTestAt : Option String
  createdAt : String
  updatedAt : Option String
deriving DecidableEq

/-- Runtime type-switch argument of `toDestinationResponse`
(destinations/handlers.go lines 43-77): one of the two supported row
variants (any other dynamic type panics in Go and cannot be represented
here). -/
inductive DestRowArg where
  | getRow (d : GetDestinationRow)
  | getAllRow (d : GetAllDestinationsRow)
deriving DecidableEq

/-- Response struct `destinationResponse` (handlers.go lines 30-41): it
has no field for the access or secret key. -/
structure DestinationResponse where
  id : UUID
  name : String
  bucketName : String
  region : String
  endpoint : String
  testOk : Option Bool
  testError : Option String
  lastTestAt : Option String
  createdAt : String
  updatedAt : Option String
deriving DecidableEq

/-- Embedding of `toDestinationResponse` (handlers.go lines 43-112): the
type switch copies the same ten non-credential fields out of either row
variant; the sql.Null* fields become optional values, with the RFC-3339
time formatting abstracted into the stored strings. -/
def toDestinationResponse (dest : DestRowArg) : DestinationResponse :=
  match dest with
  | .getRow d =>
    ⟨d.id, d.name, d.bucketName, d.region, d.endpoint,
     d.testOk, d.testError, d.lastTestAt, d.createdAt, d.updatedAt⟩
  | .getAllRow d =>
    ⟨d.id, d.name, d.bucketName, d.region, d.endpoint,
     d.testOk, d.testError, d.lastTestAt, d.createdAt, d.updatedAt⟩

/-- Replacement of only the credential fields of a get row. -/
def GetDestinationRow.withKeys (d : GetDestinationRow) (ak sk : String) : GetDestinationRow :=
  { d with accessKey := ak, secretKey := sk }

/-- Replacement of only the credential fields of a list row. -/
def GetAllDestinationsRow.withKeys (d : GetAllDestinationsRow) (ak sk : String) :
    GetAllDestinationsRow :=
  { d with accessKey := ak, secretKey := sk }

/-- Claim C7 (confirmed): destination responses are independent of the
credential fields — for either row variant, changing only the access and
secret keys leaves the response of `toDestinationResponse` (used by both
the list and the get handlers) unchanged, so credentials never appear in
destination API responses. -/
theorem C7_credentials_noninterference :
    (∀ (d : GetDestinationRow) (ak sk : String),
      toDestinationResponse (.getRow (d.withKeys ak sk)) = toDestinationResponse (.getRow d)) ∧
    (∀ (d : GetAllDestinationsRow) (ak sk : String),
      toDestinationResponse (.getAllRow (d.withKeys ak sk))
        = toDestinationResponse (.getAllRow d)) :=
  ⟨fun _ _ _ => rfl, fun _ _ _ => rfl⟩

/-- Execution status values, per the Execution.status enum in
swagger.json (part_008 lines 147-150). -/
inductive ExecStatus where
  | running
  | success
  | failed
  | deleted
deriving DecidableEq

/-- Modelled from the spec: an Execution row restricted to the fields the
concurrency and monotonicity invariants concern (the executor and store
internals are not part of this excerpt). -/
structure ExecRow where
  id : Nat
  configId : Nat
  status : ExecStatus
deriving DecidableEq

/-- Modelled from the spec: (§5) the scheduler/store state — the
execution rows together with the per-config run locks, "acquired before
the Execution row transitions to running and released only after the row
reaches a terminal status". -/
structure SchedState where
  rows : List ExecRow
  locks : List Nat
deriving DecidableEq

/-- Modelled from the spec: trigger events (scheduled and manual triggers
enter at the same point) and per-config run-completion events. -/
inductive SchedEvent where
  | trigger (configId : Nat) (execId : Nat)
  | finish (configId : Nat) (success : Bool)
deriving DecidableEq

/-- Modelled from the spec: (§4.1) `Trigger` returns AlreadyRunningError
when the config's lock is held — the state is unchanged, no duplicate is
queued; otherwise the lock is acquired and a running Execution row is
created. -/
def schedTrigger (s : SchedState) (configId execId : Nat) : SchedState :=
  if configId ∈ s.locks then s
  else ⟨s.rows ++ [⟨execId, configId, .running⟩], configId :: s.locks⟩

/-- Modelled from the spec: (§4.2 step 5, §5) completion of the run for a
config — the supervising completion handler moves its running row to a
terminal status, and only then is the config's lock released; a
completion event for a config with no run in progress is a no-op. -/
def schedFinish (s : SchedState) (configId : Nat) (success : Bool) : SchedState :=
  if configId ∈ s.locks then
    ⟨s.rows.map (fun r =>
        if r.configId == configId && r.status == ExecStatus.running then
          { r with status := if success then .success else .failed }
        else r),
      s.locks.filter (fun c => c != configId)⟩
  else s

/-- One scheduler/store transition. -/
def schedStep (s : SchedState) (e : SchedEvent) : SchedState :=
  match e with
  | .trigger c i => schedTrigger s c i
  | .finish c ok => schedFinish s c ok

/-- State reached from the empty store by a sequence of events. -/
def schedRun (events : List SchedEvent) : SchedState :=
  events.foldl schedStep ⟨[], []⟩

/-- Predicate: a row is a running execution of the given config. -/
def runningP (c : Nat) (r : ExecRow) : Bool :=
  r.configId == c && r.status == ExecStatus.running

/-- Number of running Execution rows of a config. -/
def runningCount (s : SchedState) (c : Nat) : Nat :=
  s.rows.countP (runningP c)

/-- Inductive invariant: at most one running row per config, and none
for a config whose lock is free. -/
def SchedInv (s : SchedState) : Prop :=
  ∀ c, runningCount s c ≤ 1 ∧ (c ∉ s.locks → runningCount s c = 0)

lemma schedInv_init : SchedInv ⟨[], []⟩ := by
  intro c
  constructor <;> simp [runningCount]

lemma schedInv_step (s : SchedState) (e : SchedEvent) (hs : SchedInv s) :
    SchedInv (schedStep s e) := by
  cases e with
  | trigger cfg i =>
    show SchedInv (schedTrigger s cfg i)
    unfold schedTrigger
    by_cases hl : cfg ∈ s.locks
    · rw [if_pos hl]
      exact hs
    · rw [if_neg hl]
      intro c
      have hsplit : runningCount ⟨s.rows ++ [⟨i, cfg, .running⟩], cfg :: s.locks⟩ c
          = runningCount s c + (if runningP c ⟨i, cfg, .running⟩ then 1 else 0) := by
        simp [runningCount, List.countP_append, List.countP_cons]
      by_cases hc : c = cfg
      · subst hc
        have h0 : runningCount s c = 0 := (hs c).2 hl
        constructor
        · rw [hsplit, h0]
          have : runningP c (⟨i, c, .running⟩ : ExecRow) = true := by
            simp [runningP]
          rw [this]
          simp
        · intro hmem
          exact absurd (by simp : c ∈ c :: s.locks) hmem
      · have hone : runningP c (⟨i, cfg, .running⟩ : ExecRow) = false := by
          simp only [runningP]
          simp [Ne.symm hc]
        rw [hsplit, hone]
        constructor
        · simpa using (hs c).1
        · intro hmem
          have hm2 : c ∉ s.locks := by
            intro hx
            exact hmem (by simp [hx])
          simpa using (hs c).2 hm2
  | finish cfg ok =>
    show SchedInv (schedFinish s cfg ok)
    unfold schedFinish
    by_cases hl : cfg ∈ s.locks
    · rw [if_pos hl]
      intro c
      by_cases hc : c = cfg
      · subst hc
        have hz : runningCount
            ⟨s.rows.map (fun r =>
                if r.configId == c && r.status == ExecStatus.running then
                  { r with status := if ok then .success else .failed }
                else r),
              s.locks.filter (fun x => x != c)⟩ c = 0 := by
          simp only [runningCount, List.countP_map]
          rw [List.countP_eq_zero]
          intro a _
          by_cases hm : (a.configId == c && a.status == ExecStatus.running) = true
          · simp only [Function.comp]
            rw [if_pos hm]
            cases ok <;> simp [runningP]
          · simp only [Function.comp]
            rw [if_neg hm]
            simp only [runningP]
            exact hm
        rw [hz]
        exact ⟨Nat.zero_le 1, fun _ => rfl⟩
      · have hsame : runningCount
            ⟨s.rows.map (fun r =>
                if r.configId == cfg && r.status == ExecStatus.running then
                  { r with status := if ok then .success else .failed }
                else r),
              s.locks.filter (fun x => x != cfg)⟩ c = runningCount s c := by
          simp only [runningCount, List.countP_map]
          apply List.countP_congr
          intro a _
          by_cases hm : (a.configId == cfg && a.status == ExecStatus.running) = true
          · have hac : a.configId = cfg := by
              have h2 := hm
              simp only [Bool.and_eq_true, beq_iff_eq] at h2
              exact h2.1
            simp only [Function.comp]
            rw [if_pos hm]
            constructor
            · intro hfa
              exact absurd hfa (by cases ok <;> simp [runningP])
            · intro hpa
              exact absurd hpa (by simp [runningP, hac, Ne.symm hc])
          · simp only [Function.comp]
            rw [if_neg hm]
        constructor
        · rw [hsame]
          exact (hs c).1
        · intro hmem
          rw [hsame]
          apply (hs c).2
          intro hx
          apply hmem
          simp [List.mem_filter, hx, bne_iff_ne, hc]
    · rw [if_neg hl]
      exact hs

/-- Claim C2 (confirmed, modelled from the spec): for any sequence of
triggers (scheduled or manual) and run completions against the same
BackupConfig, the store never holds two running Execution rows for one
config — at most one Execution per config is running at any time. -/
theorem C2_single_running (events : List SchedEvent) (c : Nat) :
    runningCount (schedRun events) c ≤ 1 := by
  have main : ∀ (evs : List SchedEvent) (s : SchedState), SchedInv s →
      SchedInv (evs.foldl schedStep s) := by
    intro evs
    induction evs with
    | nil => intro s hs; exact hs
    | cons e rest ih =>
      intro s hs
      exact ih (schedStep s e) (schedInv_step s e hs)
  exact ((main events ⟨[], []⟩ schedInv_init) c).1

/-- Modelled from the spec: (§4.5) the legal status transitions of the
Execution Record Store — running → success | failed, and success or
failed → deleted. -/
def allowedTransition : ExecStatus → ExecStatus → Bool
  | .running, .success => true
  | .running, .failed => true
  | .success, .deleted => true
  | .failed, .deleted => true
  | _, _ => false

/-- Modelled from the spec: (§4.5) the store operations — `Create`
appends a row with status running (§4.2 step 1); `UpdateStatus` moves a
row along an allowed transition and rejects any other request; soft
deletion is `UpdateStatus` into deleted.  No operation removes a row. -/
inductive StoreOp where
  | create (execId configId : Nat)
  | updateStatus (execId : Nat) (newStatus : ExecStatus)
deriving DecidableEq

/-- Application of one store operation to the stored rows. -/
def applyStoreOp (rows : List ExecRow) (op : StoreOp) : List ExecRow :=
  match op with
  | .create execId configId => rows ++ [⟨execId, configId, .running⟩]
  | .updateStatus execId newStatus =>
    rows.map (fun r =>
      if r.id == execId && allowedTransition r.status newStatus then
        { r with status := newStatus }
      else r)

/-- Claim C3 (confirmed, modelled from the spec): store operations never
remove a row (each stored row survives at its position, id and config
unchanged), every status change follows an allowed transition, a row in
a terminal state (success or failed) can only stay or move to deleted,
and no row ever moves (back) to running. -/
theorem C3_status_monotonic (rows : List ExecRow) (op : StoreOp) :
    rows.length ≤ (applyStoreOp rows op).length ∧
    (∀ i r, rows.get? i = some r → ∃ r',
      (applyStoreOp rows op).get? i = some r' ∧ r'.id = r.id ∧ r'.configId = r.configId ∧
      (r'.status = r.status ∨ allowedTransition r.status r'.status = true) ∧
      ((r.status = .success ∨ r.status = .failed) →
        (r'.status = r.status ∨ r'.status = .deleted)) ∧
      (r'.status = .running → r.status = .running)) := by
  cases op with
  | create execId configId =>
    constructor
    · simp [applyStoreOp]
    · intro i r h
      refine ⟨r, ?_, rfl, rfl, Or.inl rfl, fun _ => Or.inl rfl, fun h2 => h2⟩
      unfold applyStoreOp
      rw [List.get?_append]
      · exact h
      · exact List.get?_eq_some.mp h |>.choose
  | updateStatus execId newStatus =>
    constructor
    · simp [applyStoreOp]
    · intro i r h
      have hg : (applyStoreOp rows (.updateStatus execId newStatus)).get? i
          = some (if r.id == execId && allowedTransition r.status newStatus then
              { r with status := newStatus } else r) := by
        unfold applyStoreOp
        rw [List.get?_map, h]
        rfl
      by_cases hm : (r.id == execId && allowedTransition r.status newStatus) = true
      · rw [if_pos hm] at hg
        have hall : allowedTransition r.status newStatus = true :=
          ((Bool.and_eq_true _ _).mp hm).2
        refine ⟨{ r with status := newStatus }, hg, rfl, rfl, Or.inr hall, ?_, ?_⟩
        · intro ht
          right
          rcases ht with h1 | h1 <;> rw [h1] at hall <;>
            cases newStatus <;> simp_all [allowedTransition]
        · intro hr
          have hr2 : newStatus = ExecStatus.running := hr
          rw [hr2] at hall
          cases hst : r.status <;> rw [hst] at hall <;>
            simp [allowedTransition] at hall
      · rw [if_neg hm] at hg
        exact ⟨r, hg, rfl, rfl, Or.inl rfl, fun _ => Or.inl rfl, fun h2 => h2⟩

/-- Witness for claim C3 at a concrete store: updating the single running
row to success preserves it at its position with an allowed transition. -/
theorem C3_status_monotonic_witness :
    ∃ r', (applyStoreOp [⟨1, 7, .running⟩] (.updateStatus 1 .success)).get? 0 = some r' ∧
      r'.id = 1 ∧ r'.configId = 7 ∧
      (r'.status = ExecStatus.running ∨
        allowedTransition ExecStatus.running r'.status = true) ∧
      ((ExecStatus.running = .success ∨ ExecStatus.running = .failed) →
        (r'.status = ExecStatus.running ∨ r'.status = .deleted)) ∧
      (r'.status = .running → ExecStatus.running = .running) :=
  (C3_status_monotonic [⟨1, 7, .running⟩] (.updateStatus 1 .success)).2 0
    ⟨1, 7, .running⟩ (by decide)

end PgBackWeb
